import Mathlib

/-!
Verification of the selfish card-game engine.

Shallow embedding of the engine from the Rust sources:
src/game.rs, src/game_cards.rs, src/player.rs, src/actions.rs,
src/space_cards.rs, src/errors.rs.

Agent (controller) replies and the RNG-driven shuffle are external inputs;
they are passed in explicitly (a Decisions record and shuffle functions).
Rust mutation through a failed operation keeps the partial mutations on the
borrowed state, so every stateful operation here returns the error together
with the state at the point of failure.
-/

namespace Selfish

/-- Action-deck card kinds, from game_cards.rs (enum GameCard). -/
inductive GameCard
  | O1
  | O2
  | OxygenSiphon
  | Shield
  | HackSuit
  | TractorBeam
  | RocketBooster
  | LaserBlast
  | HoleInSuit
  | Tether
deriving DecidableEq

/-- Space-track card kinds, from space_cards.rs (enum SpaceCard). -/
inductive SpaceCard
  | BlankSpace
  | UsefulJunk
  | MysteriousNebula
  | Hyperspace
  | Meteoroid
  | CosmicRadiation
  | AsteroidField
  | GravitationalAnomaly
  | WormHole
  | SolarFlare
deriving DecidableEq

/-- Breathe-or-travel choice, from actions.rs (enum BreatheOrTravel). -/
inductive BreatheOrTravel
  | Breathe
  | Travel
deriving DecidableEq

/-- Game-rule errors, from errors.rs (enum SelfishError). Player references
are plain roster indices. -/
inductive SelfishError
  | CantAttackYourself
  | PlayerHasNoCardsLeft
  | PlayerDoesNotHaveEnoughCards (target : Nat) (count : Nat)
  | PlayerDoesNotHaveThisCard (card : GameCard)
  | PlayerDoesNotExist (target : Nat)
  | InvalidDiscardCount (expected : Nat) (actual : Nat)
deriving DecidableEq

/-- An engine outcome: either a recoverable game-rule error (Rust
miette::Result::Err) or a fatal contract violation (Rust assert/unwrap
panic). -/
inductive EngineError
  | game (e : SelfishError)
  | contract
deriving DecidableEq

/-- Turn phases, from game.rs (enum Phase). -/
inductive Phase
  | Pickup
  | Actions
  | BreatheOrTravel
deriving DecidableEq

/-- Actions, from actions.rs (enum Action); targets are roster indices. -/
inductive Action
  | OxygenSiphon (target : Nat)
  | HackSuit (target : Nat)
  | TractorBeam (target : Nat)
  | RocketBooster
  | LaserBlast (target : Nat)
  | HoleInSuit (target : Nat)
  | Tether (target : Nat)
deriving DecidableEq

namespace Action

/-- Action::card from actions.rs. -/
def card : Action → GameCard
  | OxygenSiphon _ => GameCard.OxygenSiphon
  | HackSuit _ => GameCard.HackSuit
  | TractorBeam _ => GameCard.TractorBeam
  | RocketBooster => GameCard.RocketBooster
  | LaserBlast _ => GameCard.LaserBlast
  | HoleInSuit _ => GameCard.HoleInSuit
  | Tether _ => GameCard.Tether

/-- Action::attacking from actions.rs. -/
def attacking : Action → Option Nat
  | OxygenSiphon target => some target
  | HackSuit target => some target
  | TractorBeam target => some target
  | RocketBooster => none
  | LaserBlast target => some target
  | HoleInSuit target => some target
  | Tether target => some target

/-- The steal count of Action::rules from actions.rs (rules().steal is
Some with this count, or None). -/
def stealCount : Action → Option Nat
  | OxygenSiphon _ => some 2
  | HackSuit _ => some 1
  | TractorBeam _ => some 1
  | RocketBooster => none
  | LaserBlast _ => none
  | HoleInSuit _ => none
  | Tether _ => none

end Action

/-- Remove the first occurrence of a card from a list (Player::remove_card's
position-then-remove), none when absent. -/
def removeFirstCard : List GameCard → GameCard → Option (List GameCard)
  | [], _ => none
  | c :: rest, x => if c = x then some rest else (removeFirstCard rest x).map (c :: ·)

/-- Player state, from player.rs (struct Player). -/
structure Player where
  alive : Bool
  hand : List GameCard
  space : List SpaceCard
deriving DecidableEq

namespace Player

/-- Player::give from player.rs (Vec::push appends at the end). -/
def give (p : Player) (c : GameCard) : Player :=
  { p with hand := p.hand ++ [c] }

/-- Player::has_card from player.rs. -/
def hasCard (p : Player) (c : GameCard) : Bool :=
  p.hand.contains c

/-- Player::remove_card from player.rs: removes the first matching card,
PlayerDoesNotHaveThisCard if absent. -/
def removeCard (p : Player) (c : GameCard) : Except EngineError Player :=
  match removeFirstCard p.hand c with
  | none => Except.error (EngineError.game (SelfishError.PlayerDoesNotHaveThisCard c))
  | some h => Except.ok { p with hand := h }

/-- Modelled from the spec: Player::count_cards is called by game.rs
(OxygenSiphon inspects the target's O1 count) but is missing from the
sources; per spec section 4.3 it is the number of copies of the kind held. -/
def countCards (p : Player) (c : GameCard) : Nat :=
  p.hand.count c

/-- Player::remove_random_card from player.rs; the RNG index draw
gen_range(0..len) is modelled by the externally supplied index taken
modulo the hand size. -/
def removeRandomCard (p : Player) (idx : Nat) :
    Except EngineError (GameCard × Player) :=
  if h : p.hand.length = 0 then
    Except.error (EngineError.game SelfishError.PlayerHasNoCardsLeft)
  else
    let i := idx % p.hand.length
    Except.ok (p.hand.get ⟨i, Nat.mod_lt _ (Nat.pos_of_ne_zero h)⟩,
      { p with hand := p.hand.eraseIdx i })

/-- Player::last_space_card from player.rs. -/
def lastSpaceCard (p : Player) : Option SpaceCard :=
  p.space.getLast?

/-- Player::in_solar_flare from player.rs. -/
def inSolarFlare (p : Player) : Bool :=
  p.lastSpaceCard = some SpaceCard.SolarFlare

end Player

/-- Action deck, from game_cards.rs (struct GameDeck). -/
structure GameDeck where
  available : List GameCard
  discard : List GameCard
deriving DecidableEq

namespace GameDeck

/-- GameDeck::add_to_discard from game_cards.rs. -/
def addToDiscard (d : GameDeck) (c : GameCard) : GameDeck :=
  { d with discard := d.discard ++ [c] }

/-- GameDeck::draw from game_cards.rs: when available is empty the whole
discard pile is moved into available and shuffled (the RNG shuffle is the
supplied function), then the last element is popped (Vec::pop); the final
unwrap on an empty pile is a panic, modelled as none. -/
def draw (shuffle : List GameCard → List GameCard) (d : GameDeck) :
    Option (GameCard × GameDeck) :=
  let d := if d.available.isEmpty then
    { available := shuffle d.discard, discard := [] }
  else d
  match d.available.getLast? with
  | none => none
  | some c => some (c, { d with available := d.available.dropLast })

end GameDeck

/-- The external inputs the engine consumes while resolving one operation:
the per-call controller (Agent) replies and the RNG draws, from
player_controller.rs (trait PlayerController) and the shared RNG. -/
structure Decisions where
  breatheOrTravelChoice : BreatheOrTravel
  defendChoice : Bool
  forcedDiscard : List GameCard
  swapTarget : Nat
  cardToTake : GameCard
  randomIndex : Nat
  rngShuffle : List GameCard → List GameCard

/-- Whole-game state, from game.rs (struct Game). The space deck is the
remaining pre-shuffled sequence; controllers and the RNG stream live in
Decisions. -/
structure Game where
  gameDeck : GameDeck
  spaceDeck : List SpaceCard
  players : List Player
  whoseTurn : Nat
  gameOver : Bool
  phase : Phase
deriving DecidableEq

namespace Game

/-- Write back player i (the end of a Rust mutable borrow of players[i]). -/
def setPlayer (g : Game) (i : Nat) (p : Player) : Game :=
  { g with players := g.players.set i p }

/-- Game::player / Game::player_mut lookup from game.rs. -/
def player? (g : Game) (i : Nat) : Option Player :=
  g.players[i]?

/-- Game::current_player from game.rs (direct index into players). -/
def currentPlayer? (g : Game) : Option Player :=
  g.players[g.whoseTurn]?

/-- Game::next_player from game.rs. -/
def nextPlayer (g : Game) : Game :=
  { g with whoseTurn := (g.whoseTurn + 1) % g.players.length }

/-- The alive count computed by Game::check_game_over from game.rs. -/
def aliveCount (g : Game) : Nat :=
  (g.players.filter (fun p => p.alive)).length

/-- Game::check_game_over from game.rs. -/
def checkGameOver (g : Game) : Game :=
  if g.aliveCount = 1 then { g with gameOver := true } else g

/-- Game::player_died from game.rs: mark dead, check game over, advance the
turn. -/
def playerDied (g : Game) (i : Nat) : Except EngineError Unit × Game :=
  match g.player? i with
  | none => (Except.error (EngineError.game (SelfishError.PlayerDoesNotExist i)), g)
  | some p =>
    let g := (g.setPlayer i { p with alive := false }).checkGameOver
    (Except.ok (), g.nextPlayer)

/-- Game::discard from game.rs lines 520-526: removes the given card from
the current player's hand, then pushes GameCard::O1 onto the deck's discard
pile (the source hard-codes O1 there, whatever card was removed). -/
def discard (g : Game) (card : GameCard) : Except EngineError Unit × Game :=
  match g.currentPlayer? with
  | none => (Except.error EngineError.contract, g)
  | some p =>
    match p.removeCard card with
    | Except.error e => (Except.error e, g)
    | Except.ok p' =>
      let g := g.setPlayer g.whoseTurn p'
      (Except.ok (), { g with gameDeck := g.gameDeck.addToDiscard GameCard.O1 })

/-- Game::can_player_defend from game.rs. -/
def canPlayerDefend (g : Game) (i : Nat) : Except EngineError Bool :=
  match g.player? i with
  | none => Except.error (EngineError.game (SelfishError.PlayerDoesNotExist i))
  | some p => Except.ok (p.hand.contains GameCard.Shield && !p.inSolarFlare)

/-- Game::swap_space from game.rs: clone both space tracks, then write them
back crosswise. -/
def swapSpace (g : Game) (p1 p2 : Nat) : Except EngineError Unit × Game :=
  match g.player? p1 with
  | none => (Except.error (EngineError.game (SelfishError.PlayerDoesNotExist p1)), g)
  | some q1 =>
    match g.player? p2 with
    | none => (Except.error (EngineError.game (SelfishError.PlayerDoesNotExist p2)), g)
    | some q2 =>
      let g := g.setPlayer p1 { q1 with space := q2.space }
      match g.player? p2 with
      | none => (Except.error (EngineError.game (SelfishError.PlayerDoesNotExist p2)), g)
      | some q2' =>
        (Except.ok (), g.setPlayer p2 { q2' with space := q1.space })

/-- Game::discard_or_die from game.rs: the current player discards the card
if held (it goes to the deck's discard pile), otherwise they die. -/
def discardOrDie (g : Game) (card : GameCard) : Except EngineError Unit × Game :=
  match g.currentPlayer? with
  | none => (Except.error EngineError.contract, g)
  | some p =>
    if p.hasCard card then
      match p.removeCard card with
      | Except.error e => (Except.error e, g)
      | Except.ok p' =>
        let g := g.setPlayer g.whoseTurn p'
        (Except.ok (), { g with gameDeck := g.gameDeck.addToDiscard card })
    else
      g.playerDied g.whoseTurn

/-- Game::draw_card from game.rs: draw from the action deck (panic when both
piles are empty) and give the card to the current player. -/
def drawCard (dec : Decisions) (g : Game) : Except EngineError Unit × Game :=
  match g.gameDeck.draw dec.rngShuffle with
  | none => (Except.error EngineError.contract, g)
  | some (c, deck) =>
    let g := { g with gameDeck := deck }
    match g.currentPlayer? with
    | none => (Except.error EngineError.contract, g)
    | some p => (Except.ok (), g.setPlayer g.whoseTurn (p.give c))

/-- The Meteoroid discard loop of Game::add_space: every chosen card is
removed from the current player's hand and pushed onto the deck's discard
pile in order; a failed removal stops the loop keeping the earlier
removals. -/
def meteoroidDiscards (g : Game) : List GameCard → Except EngineError Unit × Game
  | [] => (Except.ok (), g)
  | c :: rest =>
    match g.currentPlayer? with
    | none => (Except.error EngineError.contract, g)
    | some p =>
      match p.removeCard c with
      | Except.error e => (Except.error e, g)
      | Except.ok p' =>
        let g := g.setPlayer g.whoseTurn p'
        meteoroidDiscards { g with gameDeck := g.gameDeck.addToDiscard c } rest

/-- The recursion of Game::add_space over the remaining space deck. It is
structured on the deck sequence, which is always the caller's
g.spaceDeck (the Hyperspace branch recurses on the tail, exactly the
post-draw deck of the updated state). -/
def addSpaceGo (dec : Decisions) : List SpaceCard → Game → Except EngineError Unit × Game
  | [], g => (Except.error EngineError.contract, g)
  | spaceCard :: rest, g =>
    let w := g.whoseTurn
    match g.player? w with
    | none =>
      (Except.error (EngineError.game (SelfishError.PlayerDoesNotExist w)),
        { g with spaceDeck := rest })
    | some p =>
      let g1 : Game := { g with
        spaceDeck := rest
        players := g.players.set w { p with space := p.space ++ [spaceCard] } }
      match spaceCard with
      | SpaceCard.BlankSpace => (Except.ok (), g1)
      | SpaceCard.UsefulJunk => g1.drawCard dec
      | SpaceCard.MysteriousNebula =>
        match g1.drawCard dec with
        | (Except.error e, g2) => (Except.error e, g2)
        | (Except.ok _, g2) => g2.drawCard dec
      | SpaceCard.Hyperspace => addSpaceGo dec rest g1
      | SpaceCard.Meteoroid =>
        match g1.currentPlayer? with
        | none => (Except.error EngineError.contract, g1)
        | some p1 =>
          if p1.hand.length > 6 then
            let cards := dec.forcedDiscard
            if cards.length = 2 then
              g1.meteoroidDiscards cards
            else
              (Except.error (EngineError.game
                (SelfishError.InvalidDiscardCount 2 cards.length)), g1)
          else (Except.ok (), g1)
      | SpaceCard.CosmicRadiation => g1.discardOrDie GameCard.O1
      | SpaceCard.AsteroidField =>
        match g1.discardOrDie GameCard.O1 with
        | (Except.error e, g2) => (Except.error e, g2)
        | (Except.ok _, g2) => g2.discardOrDie GameCard.O1
      | SpaceCard.GravitationalAnomaly =>
        match g1.currentPlayer? with
        | none => (Except.error EngineError.contract, g1)
        | some p1 =>
          (Except.ok (), g1.setPlayer g1.whoseTurn { p1 with space := p1.space.dropLast })
      | SpaceCard.WormHole => g1.swapSpace g1.whoseTurn dec.swapTarget
      | SpaceCard.SolarFlare => (Except.ok (), g1)

/-- Game::add_space from game.rs. The space deck's draw is missing from the
sources (only called); modelled from the spec: it removes the front card of
the pre-shuffled sequence, never reshuffles, and exhaustion is out of scope
(modelled as a contract violation). The drawn card is pushed onto the
traveling player's track and its effect dispatched. -/
def addSpace (dec : Decisions) (g : Game) : Except EngineError Unit × Game :=
  addSpaceGo dec g.spaceDeck g

/-- The validation and shield-defense prologue of Game::action from game.rs
(self-attack check, steal-count check, defend query); returns the proceed
flag: false when a shield blocked the attack. -/
def actionDefense (dec : Decisions) (g : Game) (a : Action) :
    Except EngineError Bool × Game :=
  match a.attacking with
  | none => (Except.ok true, g)
  | some target =>
    if target = g.whoseTurn then
      (Except.error (EngineError.game SelfishError.CantAttackYourself), g)
    else
      match g.player? target with
      | none => (Except.error (EngineError.game (SelfishError.PlayerDoesNotExist target)), g)
      | some other =>
        match a.stealCount with
        | some n =>
          if n > other.hand.length then
            (Except.error (EngineError.game
              (SelfishError.PlayerDoesNotHaveEnoughCards target n)), g)
          else actionDefenseQuery dec g target other
        | none => actionDefenseQuery dec g target other
where
  /-- The defend query and shield removal of Game::action. -/
  actionDefenseQuery (dec : Decisions) (g : Game) (target : Nat) (other : Player) :
      Except EngineError Bool × Game :=
    if (other.hand.contains GameCard.Shield && !other.inSolarFlare) && dec.defendChoice then
      match other.removeCard GameCard.Shield with
      | Except.error e => (Except.error e, g)
      | Except.ok other' =>
        let g := g.setPlayer target other'
        (Except.ok false, { g with gameDeck := g.gameDeck.addToDiscard GameCard.Shield })
    else (Except.ok true, g)

/-- The effect dispatch of Game::action from game.rs (the proceed branch). -/
def actionEffect (dec : Decisions) (g : Game) (a : Action) :
    Except EngineError Unit × Game :=
  match a with
  | Action.OxygenSiphon target =>
    match g.player? target with
    | none => (Except.error (EngineError.game (SelfishError.PlayerDoesNotExist target)), g)
    | some tp =>
      match tp.countCards GameCard.O1 with
      | 0 => g.playerDied target
      | 1 =>
        match g.currentPlayer? with
        | none => (Except.error EngineError.contract, g)
        | some cp =>
          let g := g.setPlayer g.whoseTurn (cp.give GameCard.O1)
          g.playerDied target
      | _ + 2 =>
        match tp.removeCard GameCard.O1 with
        | Except.error e => (Except.error e, g)
        | Except.ok tp1 =>
          match tp1.removeCard GameCard.O1 with
          | Except.error e => (Except.error e, g.setPlayer target tp1)
          | Except.ok tp2 =>
            let g := g.setPlayer target tp2
            match g.currentPlayer? with
            | none => (Except.error EngineError.contract, g)
            | some cp => (Except.ok (), g.setPlayer g.whoseTurn (cp.give GameCard.O1))
  | Action.HackSuit target =>
    match g.player? target with
    | none => (Except.error (EngineError.game (SelfishError.PlayerDoesNotExist target)), g)
    | some tp =>
      let card := dec.cardToTake
      match tp.removeCard card with
      | Except.error e => (Except.error e, g)
      | Except.ok tp' =>
        let g := g.setPlayer target tp'
        match g.currentPlayer? with
        | none => (Except.error EngineError.contract, g)
        | some cp => (Except.ok (), g.setPlayer g.whoseTurn (cp.give card))
  | Action.TractorBeam target =>
    match g.player? target with
    | none => (Except.error (EngineError.game (SelfishError.PlayerDoesNotExist target)), g)
    | some tp =>
      match tp.removeRandomCard dec.randomIndex with
      | Except.error e => (Except.error e, g)
      | Except.ok (card, tp') =>
        let g := g.setPlayer target tp'
        match g.currentPlayer? with
        | none => (Except.error EngineError.contract, g)
        | some cp => (Except.ok (), g.setPlayer g.whoseTurn (cp.give card))
  | Action.RocketBooster => g.addSpace dec
  | Action.LaserBlast target =>
    match g.player? target with
    | none => (Except.error (EngineError.game (SelfishError.PlayerDoesNotExist target)), g)
    | some tp =>
      (Except.ok (), g.setPlayer target { tp with space := tp.space.dropLast })
  | Action.HoleInSuit _ => (Except.ok (), g)
  | Action.Tether _ => (Except.ok (), g)

/-- Game::action from game.rs: phase assertion, validation and defense,
effect dispatch when not blocked, then the action-card discard. -/
def action (dec : Decisions) (g : Game) (a : Action) :
    Except EngineError Unit × Game :=
  if g.phase ≠ Phase.Actions then (Except.error EngineError.contract, g)
  else
    match actionDefense dec g a with
    | (Except.error e, g) => (Except.error e, g)
    | (Except.ok proceed, g) =>
      match (if proceed then actionEffect dec g a else (Except.ok (), g)) with
      | (Except.error e, g) => (Except.error e, g)
      | (Except.ok _, g) => g.discard a.card

/-- Game::breathe_or_travel from game.rs: decide from held oxygen (asking
the controller when both kinds are held), apply the breath or travel, or
die with no oxygen; then reset the phase and advance the turn. The Travel
branch removes an O2 from the hand but pushes an O1 onto the deck's discard
pile (game.rs lines 147-148). -/
def breatheOrTravel (dec : Decisions) (g : Game) : Except EngineError Unit × Game :=
  if g.phase ≠ Phase.Actions then (Except.error EngineError.contract, g)
  else
    let g := { g with phase := Phase.BreatheOrTravel }
    let w := g.whoseTurn
    match g.player? w with
    | none => (Except.error (EngineError.game (SelfishError.PlayerDoesNotExist w)), g)
    | some player =>
      let choice : Option BreatheOrTravel :=
        match player.hasCard GameCard.O1, player.hasCard GameCard.O2 with
        | false, false => none
        | true, false => some BreatheOrTravel.Breathe
        | false, true => some BreatheOrTravel.Travel
        | true, true => some dec.breatheOrTravelChoice
      let step : Except EngineError Unit × Game :=
        match choice with
        | some BreatheOrTravel.Breathe =>
          match player.removeCard GameCard.O1 with
          | Except.error e => (Except.error e, g)
          | Except.ok p' =>
            let g := g.setPlayer w p'
            (Except.ok (), { g with gameDeck := g.gameDeck.addToDiscard GameCard.O1 })
        | some BreatheOrTravel.Travel =>
          match player.removeCard GameCard.O2 with
          | Except.error e => (Except.error e, g)
          | Except.ok p' =>
            let g := g.setPlayer w p'
            let g := { g with gameDeck := g.gameDeck.addToDiscard GameCard.O1 }
            g.addSpace dec
        | none => g.playerDied w
      match step with
      | (Except.error e, g) => (Except.error e, g)
      | (Except.ok _, g) => (Except.ok (), ({ g with phase := Phase.Pickup }).nextPlayer)

/-- Total copies of one card kind across every hand plus both action-deck
piles (the conservation quantity of spec section 8). -/
def kindCount (g : Game) (c : GameCard) : Nat :=
  (g.players.map (fun p => p.hand.count c)).sum
    + g.gameDeck.available.count c + g.gameDeck.discard.count c

end Game

section HelperLemmas

/-- A successful first-occurrence removal shortens the hand by one. -/
theorem removeFirstCard_length {l : List GameCard} {c : GameCard} {l' : List GameCard}
    (h : removeFirstCard l c = some l') : l.length = l'.length + 1 := by
  induction l generalizing l' with
  | nil => simp [removeFirstCard] at h
  | cons a t ih =>
    by_cases hac : a = c
    · simp [removeFirstCard, hac] at h
      subst h
      simp
    · simp [removeFirstCard, hac] at h
      obtain ⟨t', ht', rfl⟩ := h
      simp [ih ht']

/-- A successful first-occurrence removal drops exactly one copy of the
removed kind. -/
theorem removeFirstCard_count_self {l : List GameCard} {c : GameCard} {l' : List GameCard}
    (h : removeFirstCard l c = some l') : l.count c = l'.count c + 1 := by
  induction l generalizing l' with
  | nil => simp [removeFirstCard] at h
  | cons a t ih =>
    by_cases hac : a = c
    · simp [removeFirstCard, hac] at h
      subst h
      simp [hac]
    · simp [removeFirstCard, hac] at h
      obtain ⟨t', ht', rfl⟩ := h
      simp [List.count_cons, hac, ih ht']

/-- Removing the first occurrence of one kind keeps every other kind's
count. -/
theorem removeFirstCard_count_ne {l : List GameCard} {c : GameCard} {l' : List GameCard}
    (h : removeFirstCard l c = some l') {d : GameCard} (hdc : d ≠ c) :
    l'.count d = l.count d := by
  induction l generalizing l' with
  | nil => simp [removeFirstCard] at h
  | cons a t ih =>
    by_cases hac : a = c
    · simp [removeFirstCard, hac] at h
      subst h
      subst hac
      simp [List.count_cons, Ne.symm hdc]
    · simp [removeFirstCard, hac] at h
      obtain ⟨t', ht', rfl⟩ := h
      simp [List.count_cons, ih ht']

/-- A held card can always be removed. -/
theorem removeFirstCard_isSome_of_mem {l : List GameCard} {c : GameCard}
    (h : c ∈ l) : ∃ l', removeFirstCard l c = some l' := by
  induction l with
  | nil => simp at h
  | cons a t ih =>
    by_cases hac : a = c
    · exact ⟨t, by simp [removeFirstCard, hac]⟩
    · have : c ∈ t := by
        rcases List.mem_cons.mp h with h1 | h1
        · exact absurd h1.symm hac
        · exact h1
      obtain ⟨t', ht'⟩ := ih this
      exact ⟨a :: t', by simp [removeFirstCard, hac, ht']⟩

/-- Setting an index back to the value it already holds is the identity. -/
theorem list_set_self {α : Type} {l : List α} {i : Nat} {a : α}
    (h : l[i]? = some a) : l.set i a = l := by
  induction l generalizing i with
  | nil => simp at h
  | cons b t ih =>
    cases i with
    | zero =>
      simp at h
      simp [h]
    | succ j =>
      simp at h
      simp [ih h]

/-- Stepping one seat forward never stays in place once the roster holds at
least two players. -/
theorem next_seat_ne {n w : Nat} (hw : w < n) (h2 : 2 ≤ n) : (w + 1) % n ≠ w := by
  rcases Nat.lt_or_ge (w + 1) n with h | h
  · rw [Nat.mod_eq_of_lt h]
    omega
  · have : w + 1 = n := by omega
    rw [this, Nat.mod_self]
    omega

end HelperLemmas

/-- A fixed record of external inputs used in the concrete scenarios: the
controller breathes when free to choose, always defends, and the RNG
shuffle is the identity stream. -/
def specDec : Decisions where
  breatheOrTravelChoice := BreatheOrTravel.Breathe
  defendChoice := true
  forcedDiscard := []
  swapTarget := 0
  cardToTake := GameCard.O1
  randomIndex := 0
  rngShuffle := id

/-- A living player holding the given hand with an empty space track. -/
def livePlayer (hand : List GameCard) : Player :=
  { alive := true, hand := hand, space := [] }

/-- Two players in the Actions phase: the actor holds one Tether, the other
player one O1; both deck piles empty. -/
def conservationState : Game where
  gameDeck := { available := [], discard := [] }
  spaceDeck := [SpaceCard.BlankSpace]
  players := [livePlayer [GameCard.Tether], livePlayer [GameCard.O1]]
  whoseTurn := 0
  gameOver := false
  phase := Phase.Actions

/-- C1: card conservation fails on the code. Resolving a Tether action
(no effect, undefended) destroys the Tether and mints a fresh O1: the total
Tether count across hands and both piles drops from 1 to 0 while the O1
count rises from 1 to 2, because Game::discard (game.rs line 524) pushes a
hard-coded GameCard::O1 onto the discard pile instead of the removed action
card. -/
theorem conservation_violated_by_action_discard :
    (Game.action specDec conservationState (Action.Tether 1)).1 = Except.ok () ∧
    conservationState.kindCount GameCard.Tether = 1 ∧
    (Game.action specDec conservationState (Action.Tether 1)).2.kindCount GameCard.Tether = 0 ∧
    conservationState.kindCount GameCard.O1 = 1 ∧
    (Game.action specDec conservationState (Action.Tether 1)).2.kindCount GameCard.O1 = 2 :=
  ⟨rfl, rfl, rfl, rfl, rfl⟩

/-- Three players in the Actions phase; player 0 holds no oxygen at all, so
the breathe-or-travel resolution eliminates them. -/
def turnOrderState : Game where
  gameDeck := { available := [], discard := [] }
  spaceDeck := [SpaceCard.BlankSpace]
  players := [livePlayer [GameCard.Shield], livePlayer [GameCard.O1], livePlayer [GameCard.O1]]
  whoseTurn := 0
  gameOver := false
  phase := Phase.Actions

/-- C2: turn order skips a living player after an elimination. When player 0
of three dies for lack of oxygen, Game::player_died advances the turn and
Game::breathe_or_travel advances it once more, so the next executed turn
belongs to player 2 even though player 1 is still alive. -/
theorem turn_order_skips_living_player :
    (Game.breatheOrTravel specDec turnOrderState).1 = Except.ok () ∧
    (Game.breatheOrTravel specDec turnOrderState).2.whoseTurn = 2 ∧
    ((Game.breatheOrTravel specDec turnOrderState).2.players[0]?).map Player.alive
      = some false ∧
    ((Game.breatheOrTravel specDec turnOrderState).2.players[1]?).map Player.alive
      = some true :=
  ⟨rfl, rfl, rfl, rfl⟩

/-- Two players in the Actions phase: the actor holds one HoleInSuit card,
the target one O2. -/
def actionDiscardState : Game where
  gameDeck := { available := [], discard := [] }
  spaceDeck := [SpaceCard.BlankSpace]
  players := [livePlayer [GameCard.HoleInSuit], livePlayer [GameCard.O2]]
  whoseTurn := 0
  gameOver := false
  phase := Phase.Actions

/-- C4: the resolved action card never reaches the discard pile. Playing
HoleInSuit removes the HoleInSuit from the actor's hand as claimed, but the
pile afterwards holds exactly one O1 and no HoleInSuit (game.rs line 524
hard-codes GameCard::O1 in Game::discard). -/
theorem action_card_not_placed_in_discard :
    (Game.action specDec actionDiscardState (Action.HoleInSuit 1)).1 = Except.ok () ∧
    ((Game.action specDec actionDiscardState (Action.HoleInSuit 1)).2.players[0]?).map
      Player.hand = some [] ∧
    (Game.action specDec actionDiscardState (Action.HoleInSuit 1)).2.gameDeck.discard
      = [GameCard.O1] :=
  ⟨rfl, rfl, rfl⟩

/-- Three players in the Actions phase: the actor holds an OxygenSiphon and
the target (player 1) holds two O2 and no O1, so the siphon eliminates the
target. -/
def deadFreezeState : Game where
  gameDeck := { available := [], discard := [] }
  spaceDeck := [SpaceCard.BlankSpace, SpaceCard.BlankSpace]
  players := [livePlayer [GameCard.OxygenSiphon], livePlayer [GameCard.O2, GameCard.O2],
    livePlayer [GameCard.O1]]
  whoseTurn := 0
  gameOver := false
  phase := Phase.Actions

/-- C5: a dead player's hand and space are mutated by a later operation.
The siphon kills player 1 (their hand [O2, O2] frozen at death), but
Game::player_died leaves whose_turn pointing at the corpse, so the very
next breathe-or-travel step (exactly what Game::simulate runs next) forces
the dead player to travel: it removes an O2 from the dead hand and appends
a space card to the dead track. -/
theorem dead_player_hand_mutated_after_death :
    ((Game.action specDec deadFreezeState (Action.OxygenSiphon 1)).2.players[1]?).map
      Player.alive = some false ∧
    ((Game.action specDec deadFreezeState (Action.OxygenSiphon 1)).2.players[1]?).map
      Player.hand = some [GameCard.O2, GameCard.O2] ∧
    (Game.action specDec deadFreezeState (Action.OxygenSiphon 1)).2.whoseTurn = 1 ∧
    ((Game.breatheOrTravel specDec
        (Game.action specDec deadFreezeState (Action.OxygenSiphon 1)).2).2.players[1]?).map
      Player.hand = some [GameCard.O2] ∧
    ((Game.breatheOrTravel specDec
        (Game.action specDec deadFreezeState (Action.OxygenSiphon 1)).2).2.players[1]?).map
      Player.space = some [SpaceCard.BlankSpace] :=
  ⟨rfl, rfl, rfl, rfl, rfl⟩

/-- Three players, player 0 about to resolve a drawn AsteroidField while
holding no O1 (only an O2); player 1 holds two O1. -/
def asteroidState : Game where
  gameDeck := { available := [], discard := [] }
  spaceDeck := [SpaceCard.AsteroidField]
  players := [livePlayer [GameCard.O2], livePlayer [GameCard.O1, GameCard.O1],
    livePlayer [GameCard.O1]]
  whoseTurn := 0
  gameOver := false
  phase := Phase.BreatheOrTravel

/-- C7: AsteroidField's second discard-or-die misses the traveler. The
traveler (player 0) holds no O1, so the first application kills them — and
Game::player_died advances whose_turn, so the second application strips an
O1 from player 1, who never drew the card. The claim requires both
applications to target the traveler. -/
theorem asteroid_field_second_check_hits_next_player :
    (Game.addSpace specDec asteroidState).1 = Except.ok () ∧
    ((Game.addSpace specDec asteroidState).2.players[0]?).map Player.alive = some false ∧
    ((Game.addSpace specDec asteroidState).2.players[0]?).map Player.space
      = some [SpaceCard.AsteroidField] ∧
    ((Game.addSpace specDec asteroidState).2.players[1]?).map Player.hand
      = some [GameCard.O1] ∧
    ((Game.addSpace specDec asteroidState).2.players[1]?).map Player.alive = some true :=
  ⟨rfl, rfl, rfl, rfl, rfl⟩

/-- Closed form of Game::swap_space on two distinct valid references. -/
theorem swapSpace_eq_of_ne {g : Game} {p1 p2 : Nat} {q1 q2 : Player}
    (hq1 : g.players[p1]? = some q1) (hq2 : g.players[p2]? = some q2) (hne : p1 ≠ p2) :
    g.swapSpace p1 p2 = (Except.ok (), { g with
      players := ((g.players.set p1 ({ q1 with space := q2.space })).set p2
        ({ q2 with space := q1.space })) }) := by
  unfold Game.swapSpace Game.player? Game.setPlayer
  simp only [hq1, hq2, List.getElem?_set_ne hne]

/-- Game::swap_space with the same reference twice is the identity. -/
theorem swapSpace_self {g : Game} {p1 : Nat} {q1 : Player}
    (hq1 : g.players[p1]? = some q1) :
    g.swapSpace p1 p1 = (Except.ok (), g) := by
  have hlt : p1 < g.players.length := (List.getElem?_eq_some.mp hq1).1
  unfold Game.swapSpace Game.player? Game.setPlayer
  simp only [hq1, List.getElem?_set_eq_of_lt _ hlt, List.set_set]
  have : ({ q1 with space := q1.space } : Player) = q1 := rfl
  rw [this, list_set_self hq1]

/-- C10: Game::swap_space exchanges exactly the two referenced players'
space tracks (hand and alive flag untouched), leaves every other player and
every other game field unchanged, is undone by applying it a second time,
and with the same reference on both sides leaves the state unchanged. -/
theorem swap_space_exchange (g : Game) (p1 p2 : Nat) (q1 q2 : Player)
    (hq1 : g.players[p1]? = some q1) (hq2 : g.players[p2]? = some q2) :
    (g.swapSpace p1 p2).1 = Except.ok () ∧
    (g.swapSpace p1 p2).2.players[p2]? = some { q2 with space := q1.space } ∧
    (p1 ≠ p2 → (g.swapSpace p1 p2).2.players[p1]? = some { q1 with space := q2.space }) ∧
    (∀ i, i ≠ p1 → i ≠ p2 → (g.swapSpace p1 p2).2.players[i]? = g.players[i]?) ∧
    (g.swapSpace p1 p2).2.gameDeck = g.gameDeck ∧
    (g.swapSpace p1 p2).2.spaceDeck = g.spaceDeck ∧
    (g.swapSpace p1 p2).2.whoseTurn = g.whoseTurn ∧
    (g.swapSpace p1 p2).2.gameOver = g.gameOver ∧
    (g.swapSpace p1 p2).2.phase = g.phase ∧
    ((g.swapSpace p1 p2).2.swapSpace p1 p2).2 = g ∧
    (g.swapSpace p1 p1).2 = g := by
  have hlt1 : p1 < g.players.length := (List.getElem?_eq_some.mp hq1).1
  have hlt2 : p2 < g.players.length := (List.getElem?_eq_some.mp hq2).1
  by_cases hne : p1 = p2
  · subst hne
    have hq12 : q1 = q2 := by
      rw [hq1] at hq2
      exact Option.some.inj hq2
    subst hq12
    have hs := swapSpace_self hq1
    refine ⟨?_, ?_, fun h => absurd rfl h, fun i _ _ => ?_, ?_, ?_, ?_, ?_, ?_, ?_, ?_⟩ <;>
      simp [hs, hq1]
  · obtain ⟨gd, sd, pl, wt, go, ph⟩ := g
    obtain ⟨a1, d1, s1⟩ := q1
    obtain ⟨a2, d2, s2⟩ := q2
    simp only at hq1 hq2 hlt1 hlt2
    have hstep := @swapSpace_eq_of_ne ⟨gd, sd, pl, wt, go, ph⟩ p1 p2
      ⟨a1, d1, s1⟩ ⟨a2, d2, s2⟩ hq1 hq2 hne
    dsimp only at hstep
    have hb2 : ((pl.set p1 (Player.mk a1 d1 s2)).set p2 (Player.mk a2 d2 s1))[p2]?
        = some (Player.mk a2 d2 s1) := by
      rw [List.getElem?_set_eq_of_lt]
      simpa using hlt2
    have hb1 : ((pl.set p1 (Player.mk a1 d1 s2)).set p2 (Player.mk a2 d2 s1))[p1]?
        = some (Player.mk a1 d1 s2) := by
      rw [List.getElem?_set_ne (Ne.symm hne), List.getElem?_set_eq_of_lt _ hlt1]
    refine ⟨?_, ?_, fun _ => ?_, ?_, ?_, ?_, ?_, ?_, ?_, ?_, ?_⟩
    · rw [hstep]
    · rw [hstep]
      exact hb2
    · rw [hstep]
      exact hb1
    · intro i hi1 hi2
      rw [hstep]
      simp only [List.getElem?_set_ne (Ne.symm hi2), List.getElem?_set_ne (Ne.symm hi1)]
    · rw [hstep]
    · rw [hstep]
    · rw [hstep]
    · rw [hstep]
    · rw [hstep]
    · rw [hstep]
      have hback := @swapSpace_eq_of_ne
        ⟨gd, sd, ((pl.set p1 ⟨a1, d1, s2⟩).set p2 ⟨a2, d2, s1⟩), wt, go, ph⟩ p1 p2
        ⟨a1, d1, s2⟩ ⟨a2, d2, s1⟩ hb1 hb2 hne
      dsimp only at hback
      rw [hback]
      rw [List.set_comm _ _ _ (Ne.symm hne)]
      simp only [List.set_set]
      rw [list_set_self hq1, list_set_self hq2]
    · rw [@swapSpace_self ⟨gd, sd, pl, wt, go, ph⟩ p1 ⟨a1, d1, s1⟩ hq1]

/-- Two players with distinct space tracks, for exercising swap_space. -/
def swapState : Game where
  gameDeck := { available := [], discard := [] }
  spaceDeck := []
  players := [Player.mk true [] [SpaceCard.BlankSpace],
    Player.mk true [] [SpaceCard.WormHole, SpaceCard.SolarFlare]]
  whoseTurn := 0
  gameOver := false
  phase := Phase.Actions

/-- Witness instantiating the swap_space exchange theorem at a concrete
two-player state. -/
theorem swap_space_exchange_witness :
    (swapState.swapSpace 0 1).2.players[1]? = some (Player.mk true [] [SpaceCard.BlankSpace]) ∧
    ((swapState.swapSpace 0 1).2.swapSpace 0 1).2 = swapState :=
  ⟨(swap_space_exchange swapState 0 1 (Player.mk true [] [SpaceCard.BlankSpace])
      (Player.mk true [] [SpaceCard.WormHole, SpaceCard.SolarFlare]) rfl rfl).2.1,
   (swap_space_exchange swapState 0 1 (Player.mk true [] [SpaceCard.BlankSpace])
      (Player.mk true [] [SpaceCard.WormHole, SpaceCard.SolarFlare])
      rfl rfl).2.2.2.2.2.2.2.2.2.1⟩

/-- C8: GameDeck::draw reshuffle behavior. For any RNG shuffle (a
permutation of its input): drawing with an empty available pile and a
non-empty discard pile returns a card, leaves the discard pile empty, and
the returned card together with the new available pile is exactly the
shuffled old discard pile (a permutation of it — the whole pile moved);
drawing with both piles empty fails; drawing succeeds whenever at least one
pile is non-empty. -/
theorem deck_draw_reshuffle (shuffle : List GameCard → List GameCard)
    (hperm : ∀ l, (shuffle l).Perm l) (d : GameDeck) :
    (d.available = [] → d.discard ≠ [] →
      ∃ c d', d.draw shuffle = some (c, d') ∧ d'.discard = [] ∧
        d'.available ++ [c] = shuffle d.discard ∧ (d'.available ++ [c]).Perm d.discard) ∧
    (d.available = [] → d.discard = [] → d.draw shuffle = none) ∧
    ((d.available ≠ [] ∨ d.discard ≠ []) → ∃ p, d.draw shuffle = some p) := by
  obtain ⟨av, dis⟩ := d
  refine ⟨?_, ?_, ?_⟩
  · intro hav hdis
    simp only at hav hdis
    subst hav
    have hne : shuffle dis ≠ [] := by
      intro h
      apply hdis
      have hlen := (hperm dis).length_eq
      rw [h] at hlen
      exact List.length_eq_zero.mp hlen.symm
    have hc : (shuffle dis).getLast? = some ((shuffle dis).getLast hne) :=
      List.getLast?_eq_getLast _ hne
    refine ⟨(shuffle dis).getLast hne, ⟨(shuffle dis).dropLast, []⟩, ?_, rfl, ?_, ?_⟩
    · unfold GameDeck.draw
      simp only [List.isEmpty_nil, if_pos]
      rw [hc]
    · exact List.dropLast_append_getLast hne
    · rw [List.dropLast_append_getLast hne]
      exact hperm dis
  · intro hav hdis
    simp only at hav hdis
    subst hav
    subst hdis
    unfold GameDeck.draw
    have h0 : shuffle ([] : List GameCard) = [] := by
      have hlen := (hperm []).length_eq
      exact List.length_eq_zero.mp (by simpa using hlen)
    simp [h0]
  · intro hor
    simp only at hor
    unfold GameDeck.draw
    cases hav : av with
    | nil =>
      subst hav
      have hdis : dis ≠ [] := by
        rcases hor with h | h
        · exact absurd rfl h
        · exact h
      have hne : shuffle dis ≠ [] := by
        intro h
        apply hdis
        have hlen := (hperm dis).length_eq
        rw [h] at hlen
        exact List.length_eq_zero.mp hlen.symm
      exact ⟨((shuffle dis).getLast hne, ⟨(shuffle dis).dropLast, []⟩),
        by simp [List.getLast?_eq_getLast _ hne]⟩
    | cons a t =>
      subst hav
      exact ⟨((a :: t).getLast (List.cons_ne_nil a t), ⟨(a :: t).dropLast, dis⟩),
        by simp [List.getLast?_eq_getLast _ (List.cons_ne_nil a t)]⟩

/-- Witness instantiating the deck-draw theorem: identity shuffle, empty
available pile, discard pile holding an O1 and a Shield. -/
theorem deck_draw_reshuffle_witness :
    ∃ c d', GameDeck.draw id { available := [], discard := [GameCard.O1, GameCard.Shield] }
        = some (c, d') ∧ d'.discard = [] ∧
      d'.available ++ [c] = id [GameCard.O1, GameCard.Shield] ∧
      (d'.available ++ [c]).Perm [GameCard.O1, GameCard.Shield] :=
  (deck_draw_reshuffle id (fun l => List.Perm.refl l)
    { available := [], discard := [GameCard.O1, GameCard.Shield] }).1 rfl (by decide)

/-- C9: Meteoroid resolution. When the traveler draws Meteoroid: with more
than 6 cards in hand and the Agent returning exactly two removable cards,
those two cards (and only those) leave the hand in order and land in the
deck's discard pile, shrinking the hand by exactly 2; with the Agent
returning any other count, the turn aborts with InvalidDiscardCount
(expected 2, actual count) and neither hand nor deck changes; with 6 or
fewer cards nothing happens beyond the track advance. -/
theorem meteoroid_resolution (dec : Decisions) (g : Game) (rest : List SpaceCard) (p : Player)
    (hdeck : g.spaceDeck = SpaceCard.Meteoroid :: rest)
    (hp : g.players[g.whoseTurn]? = some p) :
    (∀ c1 c2 h1 h2, 6 < p.hand.length → dec.forcedDiscard = [c1, c2] →
      removeFirstCard p.hand c1 = some h1 → removeFirstCard h1 c2 = some h2 →
      (g.addSpace dec).1 = Except.ok () ∧
      (g.addSpace dec).2.players[g.whoseTurn]?
        = some { p with space := p.space ++ [SpaceCard.Meteoroid], hand := h2 } ∧
      (g.addSpace dec).2.gameDeck.discard = g.gameDeck.discard ++ [c1, c2] ∧
      (g.addSpace dec).2.gameDeck.available = g.gameDeck.available ∧
      h2.length + 2 = p.hand.length) ∧
    (6 < p.hand.length → dec.forcedDiscard.length ≠ 2 →
      (g.addSpace dec).1 = Except.error (EngineError.game
        (SelfishError.InvalidDiscardCount 2 dec.forcedDiscard.length)) ∧
      (g.addSpace dec).2.players[g.whoseTurn]?
        = some { p with space := p.space ++ [SpaceCard.Meteoroid] } ∧
      (g.addSpace dec).2.gameDeck = g.gameDeck) ∧
    (p.hand.length ≤ 6 →
      (g.addSpace dec).1 = Except.ok () ∧
      (g.addSpace dec).2.players[g.whoseTurn]?
        = some { p with space := p.space ++ [SpaceCard.Meteoroid] } ∧
      (g.addSpace dec).2.gameDeck = g.gameDeck) := by
  have hlt : g.whoseTurn < g.players.length := (List.getElem?_eq_some.mp hp).1
  have hg1 : g.addSpace dec = Game.addSpaceGo dec (SpaceCard.Meteoroid :: rest) g := by
    rw [Game.addSpace, hdeck]
  refine ⟨?_, ?_, ?_⟩
  · intro c1 c2 h1 h2 hbig hcards hr1 hr2
    have hlen : h2.length + 2 = p.hand.length := by
      have l1 := removeFirstCard_length hr1
      have l2 := removeFirstCard_length hr2
      omega
    refine ⟨?_, ?_, ?_, ?_, hlen⟩ <;>
      simp only [hg1, Game.addSpaceGo, Game.player?, hp, Game.currentPlayer?, Game.setPlayer,
        Game.meteoroidDiscards, Player.removeCard, GameDeck.addToDiscard, hcards,
        List.getElem?_set_eq_of_lt, List.length_set, hlt, hbig, hr1, hr2] <;>
      simp [hbig, hr1, hr2, List.set_set, List.getElem?_set_eq_of_lt, hlt]
  · intro hbig hbad
    refine ⟨?_, ?_, ?_⟩ <;>
      simp only [hg1, Game.addSpaceGo, Game.player?, hp, Game.currentPlayer?, Game.setPlayer,
        List.getElem?_set_eq_of_lt, List.length_set, hlt, hbig, hbad] <;>
      simp [hbig, hbad, List.set_set, List.getElem?_set_eq_of_lt, hlt]
  · intro hsmall
    have hnotbig : ¬ (6 < p.hand.length) := by omega
    refine ⟨?_, ?_, ?_⟩ <;>
      simp only [hg1, Game.addSpaceGo, Game.player?, hp, Game.currentPlayer?, Game.setPlayer,
        List.getElem?_set_eq_of_lt, List.length_set, hlt, hnotbig] <;>
      simp [hnotbig, List.set_set, List.getElem?_set_eq_of_lt, hlt]

/-- A traveler with a seven-card hand about to resolve a drawn Meteoroid. -/
def meteoroidState : Game where
  gameDeck := { available := [], discard := [] }
  spaceDeck := [SpaceCard.Meteoroid]
  players := [Player.mk true [GameCard.O1, GameCard.O1, GameCard.O1, GameCard.O2,
    GameCard.Shield, GameCard.Tether, GameCard.HackSuit] [], livePlayer [GameCard.O1]]
  whoseTurn := 0
  gameOver := false
  phase := Phase.BreatheOrTravel

/-- External inputs whose forced-discard reply is the pair O2, Shield. -/
def meteoroidDec : Decisions :=
  { specDec with forcedDiscard := [GameCard.O2, GameCard.Shield] }

/-- Witness instantiating the Meteoroid theorem: a hand of 7 shrinks to 5,
and the two chosen cards land in the deck's discard pile. -/
theorem meteoroid_resolution_witness :
    (Game.addSpace meteoroidDec meteoroidState).1 = Except.ok () ∧
    (Game.addSpace meteoroidDec meteoroidState).2.players[0]? = some (Player.mk true
      [GameCard.O1, GameCard.O1, GameCard.O1, GameCard.Tether, GameCard.HackSuit]
      [SpaceCard.Meteoroid]) ∧
    (Game.addSpace meteoroidDec meteoroidState).2.gameDeck.discard
      = [GameCard.O2, GameCard.Shield] := by
  have h := (meteoroid_resolution meteoroidDec meteoroidState []
    (Player.mk true [GameCard.O1, GameCard.O1, GameCard.O1, GameCard.O2,
      GameCard.Shield, GameCard.Tether, GameCard.HackSuit] []) rfl rfl).1
    GameCard.O2 GameCard.Shield
    [GameCard.O1, GameCard.O1, GameCard.O1, GameCard.Shield, GameCard.Tether, GameCard.HackSuit]
    [GameCard.O1, GameCard.O1, GameCard.O1, GameCard.Tether, GameCard.HackSuit]
    (by decide) rfl (by decide) (by decide)
  exact ⟨h.1, h.2.1, h.2.2.1⟩

/-- C6: shield defense. For any targeted action whose target holds a
Shield, is not under SolarFlare, and whose Agent defends (with the steal
validation passing and the actor holding the action's card): the primary
effect is skipped — every player other than target and actor is untouched,
and the target and actor keep their alive flags and space tracks — exactly
one Shield leaves the target's hand and is placed in the discard pile, and
the actor's action card is removed from the actor's hand (the pile itself
then receives the hard-coded O1 of Game::discard). -/
theorem shield_defense_blocks (dec : Decisions) (g : Game) (a : Action) (t : Nat)
    (tp ap : Player) (ah : List GameCard)
    (hph : g.phase = Phase.Actions)
    (hatk : a.attacking = some t)
    (hne : t ≠ g.whoseTurn)
    (ht : g.players[t]? = some tp)
    (ha : g.players[g.whoseTurn]? = some ap)
    (hsteal : ∀ n, a.stealCount = some n → n ≤ tp.hand.length)
    (hshield : GameCard.Shield ∈ tp.hand)
    (hflare : tp.inSolarFlare = false)
    (hdef : dec.defendChoice = true)
    (hcard : removeFirstCard ap.hand a.card = some ah) :
    ∃ th, removeFirstCard tp.hand GameCard.Shield = some th ∧
      (g.action dec a).1 = Except.ok () ∧
      (g.action dec a).2.players[t]? = some { tp with hand := th } ∧
      (g.action dec a).2.players[g.whoseTurn]? = some { ap with hand := ah } ∧
      (∀ i, i ≠ t → i ≠ g.whoseTurn → (g.action dec a).2.players[i]? = g.players[i]?) ∧
      (g.action dec a).2.gameDeck.discard
        = g.gameDeck.discard ++ [GameCard.Shield, GameCard.O1] ∧
      (g.action dec a).2.gameDeck.available = g.gameDeck.available ∧
      (g.action dec a).2.spaceDeck = g.spaceDeck ∧
      (g.action dec a).2.whoseTurn = g.whoseTurn ∧
      (g.action dec a).2.gameOver = g.gameOver ∧
      th.count GameCard.Shield + 1 = tp.hand.count GameCard.Shield := by
  have hwlt : g.whoseTurn < g.players.length := (List.getElem?_eq_some.mp ha).1
  have htlt : t < g.players.length := (List.getElem?_eq_some.mp ht).1
  have hcont : tp.hand.contains GameCard.Shield = true := List.elem_eq_true_of_mem hshield
  obtain ⟨th, hth⟩ := removeFirstCard_isSome_of_mem hshield
  have hdefense : Game.actionDefense dec g a = (Except.ok false,
      { g with players := g.players.set t ({ tp with hand := th }),
               gameDeck := g.gameDeck.addToDiscard GameCard.Shield }) := by
    unfold Game.actionDefense Game.actionDefense.actionDefenseQuery Game.player? Game.setPlayer
      Player.removeCard
    cases hsc : a.stealCount with
    | none =>
      simp [hatk, if_neg hne, ht, hsc, hcont, hflare, hdef, hth, hshield]
    | some n =>
      have hn := hsteal n hsc
      have hng : ¬ (n > tp.hand.length) := by omega
      simp [hatk, if_neg hne, ht, hsc, hng, hcont, hflare, hdef, hth, hshield]
  have hact : g.action dec a = (Except.ok (),
      { g with players := ((g.players.set t (Player.mk tp.alive th tp.space)).set g.whoseTurn (Player.mk ap.alive ah ap.space)),
               gameDeck := ((g.gameDeck.addToDiscard GameCard.Shield).addToDiscard GameCard.O1) }) := by
    unfold Game.action
    rw [if_neg (by rw [hph]; exact fun h => h rfl), hdefense]
    unfold Game.discard Game.currentPlayer? Game.setPlayer Player.removeCard
    simp [List.getElem?_set_ne hne, ha, hcard]
  refine ⟨th, hth, ?_, ?_, ?_, ?_, ?_, ?_, ?_, ?_, ?_, ?_⟩
  · rw [hact]
  · rw [hact]
    have h3 : ((g.players.set t ({ tp with hand := th })).set g.whoseTurn
        ({ ap with hand := ah }))[t]? = some ({ tp with hand := th }) := by
      rw [List.getElem?_set_ne (Ne.symm hne), List.getElem?_set_eq_of_lt _ htlt]
    exact h3
  · rw [hact]
    have h4 : ((g.players.set t ({ tp with hand := th })).set g.whoseTurn
        ({ ap with hand := ah }))[g.whoseTurn]? = some ({ ap with hand := ah }) := by
      rw [List.getElem?_set_eq_of_lt]
      simpa using hwlt
    exact h4
  · intro i hit hiw
    rw [hact]
    have h5 : ((g.players.set t ({ tp with hand := th })).set g.whoseTurn
        ({ ap with hand := ah }))[i]? = g.players[i]? := by
      rw [List.getElem?_set_ne (Ne.symm hiw), List.getElem?_set_ne (Ne.symm hit)]
    exact h5
  · rw [hact]
    have h6 : (g.gameDeck.discard ++ [GameCard.Shield]) ++ [GameCard.O1]
        = g.gameDeck.discard ++ [GameCard.Shield, GameCard.O1] := by simp
    exact h6
  · rw [hact]
    rfl
  · rw [hact]
  · rw [hact]
  · rw [hact]
  · exact (removeFirstCard_count_self hth).symm

/-- Two players in the Actions phase: the actor holds an OxygenSiphon and
an O1, the target holds an O1, a Shield and an O1. -/
def shieldState : Game where
  gameDeck := { available := [], discard := [] }
  spaceDeck := [SpaceCard.BlankSpace]
  players := [livePlayer [GameCard.OxygenSiphon, GameCard.O1],
    livePlayer [GameCard.O1, GameCard.Shield, GameCard.O1]]
  whoseTurn := 0
  gameOver := false
  phase := Phase.Actions

/-- Witness instantiating the shield-defense theorem: a defended siphon
leaves both players alive, moves no oxygen, removes the target's Shield
and the actor's OxygenSiphon, and the pile receives the Shield. -/
theorem shield_defense_blocks_witness :
    (Game.action specDec shieldState (Action.OxygenSiphon 1)).1 = Except.ok () ∧
    (Game.action specDec shieldState (Action.OxygenSiphon 1)).2.players[1]?
      = some (Player.mk true [GameCard.O1, GameCard.O1] []) ∧
    (Game.action specDec shieldState (Action.OxygenSiphon 1)).2.players[0]?
      = some (Player.mk true [GameCard.O1] []) ∧
    (Game.action specDec shieldState (Action.OxygenSiphon 1)).2.gameDeck.discard
      = [GameCard.Shield, GameCard.O1] := by
  obtain ⟨th, hth, h1, h2, h3, _h4, h5, _⟩ := shield_defense_blocks specDec shieldState
    (Action.OxygenSiphon 1) 1
    (Player.mk true [GameCard.O1, GameCard.Shield, GameCard.O1] [])
    (Player.mk true [GameCard.OxygenSiphon, GameCard.O1] []) [GameCard.O1]
    rfl rfl (by decide) rfl rfl
    (fun n h => by
      obtain rfl : (2 : Nat) = n := Option.some.inj h
      decide)
    (by decide) rfl rfl rfl
  have hthv : ([GameCard.O1, GameCard.O1] : List GameCard) = th := Option.some.inj hth
  subst hthv
  exact ⟨h1, h2, h3, h5⟩

/-- Game::check_game_over never touches the roster. -/
theorem checkGameOver_players (g : Game) : g.checkGameOver.players = g.players := by
  unfold Game.checkGameOver
  split <;> rfl

/-- Game::check_game_over never touches whose turn it is. -/
theorem checkGameOver_whoseTurn (g : Game) : g.checkGameOver.whoseTurn = g.whoseTurn := by
  unfold Game.checkGameOver
  split <;> rfl

/-- Game::discard leaves every player other than the current one intact. -/
theorem discard_players_ne (g : Game) (c : GameCard) (i : Nat) (hi : i ≠ g.whoseTurn) :
    (g.discard c).2.players[i]? = g.players[i]? := by
  unfold Game.discard Game.currentPlayer? Game.setPlayer
  cases h : g.players[g.whoseTurn]? with
  | none => rfl
  | some p =>
    cases h2 : p.removeCard c with
    | error e => simp [h2]
    | ok p' => simp [h2, List.getElem?_set_ne (Ne.symm hi)]

/-- A successful Player::remove_card is exactly removeFirstCard on the
hand. -/
theorem removeCard_ok {p : Player} {c : GameCard} {p' : Player}
    (h2 : p.removeCard c = Except.ok p') :
    ∃ l, removeFirstCard p.hand c = some l ∧ p' = { p with hand := l } := by
  unfold Player.removeCard at h2
  cases h3 : removeFirstCard p.hand c with
  | none => rw [h3] at h2; cases h2
  | some l =>
    rw [h3] at h2
    exact ⟨l, rfl, (Except.ok.inj h2).symm⟩

/-- Game::discard never changes any alive flag. -/
theorem discard_map_alive (g : Game) (c : GameCard) (i : Nat) :
    ((g.discard c).2.players[i]?).map Player.alive = (g.players[i]?).map Player.alive := by
  by_cases hi : i = g.whoseTurn
  · subst hi
    unfold Game.discard Game.currentPlayer? Game.setPlayer
    cases h : g.players[g.whoseTurn]? with
    | none => simp [h]
    | some p =>
      cases h2 : p.removeCard c with
      | error e => simp [h2, h]
      | ok p' =>
        have hlt : g.whoseTurn < g.players.length := (List.getElem?_eq_some.mp h).1
        obtain ⟨l, h3, rfl⟩ := removeCard_ok h2
        simp [h2, h, List.getElem?_set_eq_of_lt _ hlt]
  · rw [discard_players_ne g c i hi]

/-- Game::discard never changes the count of a kind different from the
discarded one, in any player's hand. -/
theorem discard_map_count (g : Game) (c d : GameCard) (i : Nat) (hdc : d ≠ c) :
    ((g.discard c).2.players[i]?).map (fun q => q.hand.count d)
      = (g.players[i]?).map (fun q => q.hand.count d) := by
  by_cases hi : i = g.whoseTurn
  · subst hi
    unfold Game.discard Game.currentPlayer? Game.setPlayer
    cases h : g.players[g.whoseTurn]? with
    | none => simp [h]
    | some p =>
      cases h2 : p.removeCard c with
      | error e => simp [h2, h]
      | ok p' =>
        have hlt : g.whoseTurn < g.players.length := (List.getElem?_eq_some.mp h).1
        obtain ⟨l, h3, rfl⟩ := removeCard_ok h2
        simp [h2, h, List.getElem?_set_eq_of_lt _ hlt, removeFirstCard_count_ne h3 hdc]
  · rw [discard_players_ne g c i hi]

/-- Game::next_player keeps the roster. -/
theorem nextPlayer_players (g : Game) : g.nextPlayer.players = g.players := rfl

/-- Game::next_player advances the turn cyclically. -/
theorem nextPlayer_whoseTurn (g : Game) :
    g.nextPlayer.whoseTurn = (g.whoseTurn + 1) % g.players.length := rfl

/-- Writing back a player is a roster set. -/
theorem setPlayer_players (g : Game) (i : Nat) (p : Player) :
    (g.setPlayer i p).players = g.players.set i p := rfl

/-- Writing back a player keeps whose turn it is. -/
theorem setPlayer_whoseTurn (g : Game) (i : Nat) (p : Player) :
    (g.setPlayer i p).whoseTurn = g.whoseTurn := rfl

/-- C3: OxygenSiphon boundary. For an undefended siphon against a valid
non-self target (target exists, has at least the two cards the steal
validation demands, and the shield query does not fire): with zero O1 in
the target's hand the target is eliminated and the actor's hand is left
exactly as it was; with exactly one O1 the target is eliminated and the
actor's hand gains exactly one O1 at the end; with two or more O1 the
target's O1 count drops by exactly two and the actor's O1 count rises by
exactly one. -/
theorem oxygen_siphon_boundary (dec : Decisions) (g : Game) (t : Nat) (tp ap : Player)
    (hph : g.phase = Phase.Actions)
    (hne : t ≠ g.whoseTurn)
    (ht : g.players[t]? = some tp)
    (ha : g.players[g.whoseTurn]? = some ap)
    (hsz : 2 ≤ tp.hand.length)
    (hundef : ((tp.hand.contains GameCard.Shield && !tp.inSolarFlare)
      && dec.defendChoice) = false) :
    (tp.hand.count GameCard.O1 = 0 →
      ((Game.action dec g (Action.OxygenSiphon t)).2.players[t]?).map Player.alive
        = some false ∧
      ((Game.action dec g (Action.OxygenSiphon t)).2.players[g.whoseTurn]?).map Player.hand
        = some ap.hand) ∧
    (tp.hand.count GameCard.O1 = 1 →
      ((Game.action dec g (Action.OxygenSiphon t)).2.players[t]?).map Player.alive
        = some false ∧
      ((Game.action dec g (Action.OxygenSiphon t)).2.players[g.whoseTurn]?).map Player.hand
        = some (ap.hand ++ [GameCard.O1])) ∧
    (2 ≤ tp.hand.count GameCard.O1 →
      ((Game.action dec g (Action.OxygenSiphon t)).2.players[t]?).map
        (fun q => q.hand.count GameCard.O1) = some (tp.hand.count GameCard.O1 - 2) ∧
      ((Game.action dec g (Action.OxygenSiphon t)).2.players[g.whoseTurn]?).map
        (fun q => q.hand.count GameCard.O1) = some (ap.hand.count GameCard.O1 + 1)) := by
  have htlt : t < g.players.length := (List.getElem?_eq_some.mp ht).1
  have hwlt : g.whoseTurn < g.players.length := (List.getElem?_eq_some.mp ha).1
  have hn2 : 2 ≤ g.players.length := by omega
  have hnext : (g.whoseTurn + 1) % g.players.length ≠ g.whoseTurn := next_seat_ne hwlt hn2
  have hs2 : ¬ (2 > tp.hand.length) := by omega
  have hdefense : Game.actionDefense dec g (Action.OxygenSiphon t) = (Except.ok true, g) := by
    unfold Game.actionDefense Game.actionDefense.actionDefenseQuery Game.player?
    dsimp only [Action.attacking, Action.stealCount]
    rw [if_neg hne, ht]
    dsimp only
    rw [if_neg hs2, if_neg (by rw [hundef]; exact Bool.false_ne_true)]
  have hactioneq : ∀ G2 : Game,
      Game.actionEffect dec g (Action.OxygenSiphon t) = (Except.ok (), G2) →
      Game.action dec g (Action.OxygenSiphon t) = G2.discard GameCard.OxygenSiphon := by
    intro G2 heff
    unfold Game.action
    rw [if_neg (by rw [hph]; exact fun h => h rfl), hdefense]
    simp [heff, Action.card]
  refine ⟨?_, ?_, ?_⟩
  · intro h0
    have heff : Game.actionEffect dec g (Action.OxygenSiphon t) = (Except.ok (),
        ((g.setPlayer t ({ tp with alive := false })).checkGameOver).nextPlayer) := by
      unfold Game.actionEffect Game.playerDied Game.player? Game.setPlayer
      simp [ht, Player.countCards, h0]
    rw [hactioneq _ heff]
    have hGp : ((g.setPlayer t ({ tp with alive := false })).checkGameOver).nextPlayer.players
        = g.players.set t ({ tp with alive := false }) := by
      rw [nextPlayer_players, checkGameOver_players, setPlayer_players]
    have hGw : ((g.setPlayer t ({ tp with alive := false })).checkGameOver).nextPlayer.whoseTurn
        = (g.whoseTurn + 1) % g.players.length := by
      rw [nextPlayer_whoseTurn, checkGameOver_whoseTurn, checkGameOver_players,
        setPlayer_whoseTurn, setPlayer_players, List.length_set]
    constructor
    · rw [discard_map_alive, hGp, List.getElem?_set_eq_of_lt _ htlt]
      rfl
    · rw [discard_players_ne _ _ _ (by rw [hGw]; exact hnext.symm), hGp,
        List.getElem?_set_ne hne, ha]
      rfl
  · intro h1
    have heff : Game.actionEffect dec g (Action.OxygenSiphon t) = (Except.ok (),
        (((g.setPlayer g.whoseTurn (ap.give GameCard.O1)).setPlayer t
          ({ tp with alive := false })).checkGameOver).nextPlayer) := by
      unfold Game.actionEffect Game.playerDied Game.player? Game.currentPlayer? Game.setPlayer
      simp [ht, ha, Player.countCards, h1, List.getElem?_set_ne (Ne.symm hne)]
    rw [hactioneq _ heff]
    have hGp : ((((g.setPlayer g.whoseTurn (ap.give GameCard.O1)).setPlayer t
        ({ tp with alive := false })).checkGameOver).nextPlayer).players
        = (g.players.set g.whoseTurn (ap.give GameCard.O1)).set t
          ({ tp with alive := false }) := by
      rw [nextPlayer_players, checkGameOver_players, setPlayer_players, setPlayer_players]
    have hGw : ((((g.setPlayer g.whoseTurn (ap.give GameCard.O1)).setPlayer t
        ({ tp with alive := false })).checkGameOver).nextPlayer).whoseTurn
        = (g.whoseTurn + 1) % g.players.length := by
      rw [nextPlayer_whoseTurn, checkGameOver_whoseTurn, checkGameOver_players,
        setPlayer_whoseTurn, setPlayer_whoseTurn, setPlayer_players, setPlayer_players,
        List.length_set, List.length_set]
    constructor
    · rw [discard_map_alive, hGp, List.getElem?_set_eq_of_lt]
      · rfl
      · rw [List.length_set]
        exact htlt
    · rw [discard_players_ne _ _ _ (by rw [hGw]; exact hnext.symm), hGp,
        List.getElem?_set_ne hne, List.getElem?_set_eq_of_lt _ hwlt]
      rfl
  · intro h2c
    obtain ⟨k, hk⟩ : ∃ k, tp.hand.count GameCard.O1 = k + 2 :=
      ⟨tp.hand.count GameCard.O1 - 2, by omega⟩
    have hm1 : GameCard.O1 ∈ tp.hand := List.count_pos_iff.mp (by omega)
    obtain ⟨l1, hl1⟩ := removeFirstCard_isSome_of_mem hm1
    have hc1 : l1.count GameCard.O1 = k + 1 := by
      have := removeFirstCard_count_self hl1
      omega
    have hm2 : GameCard.O1 ∈ l1 := List.count_pos_iff.mp (by omega)
    obtain ⟨l2, hl2⟩ := removeFirstCard_isSome_of_mem hm2
    have hc2 : l2.count GameCard.O1 = k := by
      have := removeFirstCard_count_self hl2
      omega
    have heff : Game.actionEffect dec g (Action.OxygenSiphon t) = (Except.ok (),
        (g.setPlayer t ({ tp with hand := l2 })).setPlayer g.whoseTurn
          (ap.give GameCard.O1)) := by
      unfold Game.actionEffect Game.player? Game.currentPlayer? Game.setPlayer
        Player.removeCard
      simp [ht, ha, Player.countCards, hk, hl1, hl2, List.getElem?_set_ne hne]
    rw [hactioneq _ heff]
    have hGp : ((g.setPlayer t ({ tp with hand := l2 })).setPlayer g.whoseTurn
        (ap.give GameCard.O1)).players
        = (g.players.set t ({ tp with hand := l2 })).set g.whoseTurn
          (ap.give GameCard.O1) := by
      rw [setPlayer_players, setPlayer_players]
    have hGw : ((g.setPlayer t ({ tp with hand := l2 })).setPlayer g.whoseTurn
        (ap.give GameCard.O1)).whoseTurn = g.whoseTurn := by
      rw [setPlayer_whoseTurn, setPlayer_whoseTurn]
    constructor
    · rw [discard_map_count _ _ _ _ (by decide : GameCard.O1 ≠ GameCard.OxygenSiphon), hGp]
      rw [show ((g.setPlayer t ({ tp with hand := l2 })).setPlayer g.whoseTurn
        (ap.give GameCard.O1)).whoseTurn = g.whoseTurn from hGw] at *
      rw [List.getElem?_set_ne (Ne.symm hne), List.getElem?_set_eq_of_lt _ htlt]
      simp [hc2, hk]
    · rw [discard_map_count _ _ _ _ (by decide : GameCard.O1 ≠ GameCard.OxygenSiphon), hGp]
      rw [List.getElem?_set_eq_of_lt]
      · simp [Player.give]
      · rw [List.length_set]
        exact hwlt

/-- Two players in the Actions phase: the actor holds one OxygenSiphon, the
target two O1 and one O2 and no Shield. -/
def siphonState : Game where
  gameDeck := { available := [], discard := [] }
  spaceDeck := [SpaceCard.BlankSpace]
  players := [livePlayer [GameCard.OxygenSiphon],
    livePlayer [GameCard.O1, GameCard.O1, GameCard.O2]]
  whoseTurn := 0
  gameOver := false
  phase := Phase.Actions

/-- Witness instantiating the OxygenSiphon boundary theorem at a target
holding two O1: the target ends with zero O1 and the actor with one. -/
theorem oxygen_siphon_boundary_witness :
    ((Game.action specDec siphonState (Action.OxygenSiphon 1)).2.players[1]?).map
      (fun q => q.hand.count GameCard.O1) = some 0 ∧
    ((Game.action specDec siphonState (Action.OxygenSiphon 1)).2.players[0]?).map
      (fun q => q.hand.count GameCard.O1) = some 1 :=
  (oxygen_siphon_boundary specDec siphonState 1
    (Player.mk true [GameCard.O1, GameCard.O1, GameCard.O2] [])
    (Player.mk true [GameCard.OxygenSiphon] [])
    rfl (by decide) rfl rfl (by decide) (by decide)).2.2 (by decide)

end Selfish
